import Mathlib

/-!
Verification development for the NeuraDNS Flask UI server
(`blockchain_dns_register/app.py`).

The program is a thin HTTP gateway: it serves one static HTML file at `/`,
answers a local health check at `/health`, and forwards four API calls to a
Node.js backend at a fixed base URL, relaying the backend's JSON body and
status code, or converting any exception raised inside the handler into a
`(jsonify ({"error": str e}), 500)` response.

Embedding choices, traceable to the source:

* JSON documents are modelled by the inductive `Json`.
* The outbound HTTP layer (`requests.get` / `requests.post` followed by
  `response.json()`) is modelled by a `Backend` oracle mapping the outbound
  request the handler builds to `Except String (Nat × Json)`: `ok (S, B)`
  when the transport call succeeds and the body parses as JSON with status
  code `S`, `error m` when any step raises an exception whose `str` is `m`.
* Each Flask handler becomes a Lean function from its inputs and the oracle
  to the pair (response, list of outbound requests actually issued); the
  list is the handler's outbound trace, used to state "no backend call" and
  "at most one attempt" properties.
* `request.json` on the POST routes (which raises when the inbound body is
  not JSON or lacks a JSON content type, an exception caught by the same
  `except Exception` block) is modelled by an `Except String Json` input.
* `request.args.get ("domain")` on `/api/resolve` is an `Option String`;
  Python f-string interpolation of `None` yields the text `None`, captured
  by `pyFormatOpt`.
* The `__main__` block is modelled by `main_entry`, a function of whether
  the static HTML file exists, returning either a nonzero exit (listener
  never bound) or a listener bound on host `0.0.0.0`, port 8765.
-/

/-- JSON values, the opaque documents relayed between caller and backend. -/
inductive Json where
  | null : Json
  | bool (b : Bool) : Json
  | num (n : Int) : Json
  | str (s : String) : Json
  | arr (items : List Json) : Json
  | obj (fields : List (String × Json)) : Json

/-- Field lookup in a JSON object (first binding wins); `none` on non-objects
or absent keys. -/
def Json.getField : Json → String → Option Json
  | Json.obj fs, k => (fs.find? (fun f => f.1 == k)).map (fun f => f.2)
  | _, _ => none

/-- HTTP method of an outbound request. -/
inductive Method where
  | get : Method
  | post : Method

/-- An outbound HTTP request as the proxy handlers build it: method, full
URL, optional JSON payload (the `json=` argument of `requests.post`), and
the explicitly supplied headers. -/
structure OutRequest where
  method : Method
  url : String
  jsonBody : Option Json
  headers : List (String × String)

/-- The backend oracle: the combined behaviour of the transport call and
`response.json()`. `Except.ok (S, B)` means the call returned status `S`
and a body parsing to `B`; `Except.error m` means some step raised an
exception with `str` equal to `m` (connection refused, timeout, malformed
body, ...). -/
def Backend : Type := OutRequest → Except String (Nat × Json)

/-- `API_BASE_URL = "http://localhost:3007"` from the source. -/
def API_BASE_URL : String := "http://localhost:3007"

/-- `HTML_FILE = "public/index.html"` from the source. -/
def HTML_FILE : String := "public/index.html"

/-- Route `/`: `send_file (HTML_FILE)`; serves the static file, issues no
outbound request. The response is the path of the file served. -/
def index (_bk : Backend) : String × List OutRequest :=
  (HTML_FILE, [])

/-- Route `/health`: `jsonify` of the constant status object, issued with
Flask's default status 200 and no outbound request. -/
def health (_bk : Backend) : (Json × Nat) × List OutRequest :=
  ((Json.obj [("status", Json.str "running"),
              ("ui_server", Json.str "Flask"),
              ("port", Json.num 8765)], 200), [])

/-- Route `/api/health` (GET): `requests.get` on `API_BASE_URL/health`; on
success relay `(response.json (), response.status_code)`, on any exception
return `(jsonify ({"error": str e}), 500)`. -/
def api_health (bk : Backend) : (Json × Nat) × List OutRequest :=
  let req : OutRequest := OutRequest.mk Method.get (API_BASE_URL ++ "/health") none []
  match bk req with
  | Except.ok (code, body) => ((body, code), [req])
  | Except.error e => ((Json.obj [("error", Json.str e)], 500), [req])

/-- Route `/api/validate` (POST): evaluate `request.json` (may raise, caught
by the same handler), then `requests.post` on `API_BASE_URL/validate` with
that JSON and a fixed `Content-Type: application/json` header; relay or
convert to the 500 error shape. -/
def api_validate (inbody : Except String Json) (bk : Backend) :
    (Json × Nat) × List OutRequest :=
  match inbody with
  | Except.error e => ((Json.obj [("error", Json.str e)], 500), [])
  | Except.ok b =>
    let req : OutRequest := OutRequest.mk Method.post (API_BASE_URL ++ "/validate")
      (some b) [("Content-Type", "application/json")]
    match bk req with
    | Except.ok (code, body) => ((body, code), [req])
    | Except.error e => ((Json.obj [("error", Json.str e)], 500), [req])

/-- Route `/api/register` (POST): same shape as `/api/validate`, targeting
`API_BASE_URL/register`. -/
def api_register (inbody : Except String Json) (bk : Backend) :
    (Json × Nat) × List OutRequest :=
  match inbody with
  | Except.error e => ((Json.obj [("error", Json.str e)], 500), [])
  | Except.ok b =>
    let req : OutRequest := OutRequest.mk Method.post (API_BASE_URL ++ "/register")
      (some b) [("Content-Type", "application/json")]
    match bk req with
    | Except.ok (code, body) => ((body, code), [req])
    | Except.error e => ((Json.obj [("error", Json.str e)], 500), [req])

/-- Python f-string rendering of an optional string: `None` prints as the
four-character text `None`. -/
def pyFormatOpt : Option String → String
  | none => "None"
  | some s => s

/-- Route `/api/resolve` (GET): read `request.args.get ("domain")`, build
the URL by f-string interpolation (no percent-encoding), `requests.get`,
relay or convert to the 500 error shape. -/
def api_resolve (domainArg : Option String) (bk : Backend) :
    (Json × Nat) × List OutRequest :=
  let domain := pyFormatOpt domainArg
  let req : OutRequest :=
    OutRequest.mk Method.get (API_BASE_URL ++ "/resolve?domain=" ++ domain) none []
  match bk req with
  | Except.ok (code, body) => ((body, code), [req])
  | Except.error e => ((Json.obj [("error", Json.str e)], 500), [req])

/-- Outcome of the `__main__` block: either the process exits with a code
after printing a message (no listener bound), or the Flask listener is
bound on a host and port. -/
inductive StartOutcome where
  | exited (code : Nat) (message : String) : StartOutcome
  | listening (host : String) (port : Nat) : StartOutcome
deriving DecidableEq

/-- The `__main__` block: if `os.path.exists (HTML_FILE)` is false, print
the error and `exit (1)` before any listener exists; otherwise print the
banner and run `app.run` on host `0.0.0.0`, port 8765. -/
def main_entry (htmlExists : Bool) : StartOutcome :=
  if htmlExists then StartOutcome.listening "0.0.0.0" 8765
  else StartOutcome.exited 1 ("ERROR: " ++ HTML_FILE ++ " not found!")

/-!
Standard URL query semantics, used to state which `domain` value the
backend actually receives from the URL string the handler builds. The
fragment begins at the first `#`; the query is everything after the first
`?` of the pre-fragment part; parameters are separated by `&`; each
parameter's name is what precedes its first `=` and its value what
follows it.
-/

/-- Characters strictly before the first occurrence of `c` (the whole list
when `c` is absent). -/
def takeUntil (c : Char) : List Char → List Char
  | [] => []
  | x :: xs => if x = c then [] else x :: takeUntil c xs

/-- Characters strictly after the first occurrence of `c` (`[]` when `c` is
absent). -/
def dropPast (c : Char) : List Char → List Char
  | [] => []
  | x :: xs => if x = c then xs else dropPast c xs

/-- Split at every occurrence of `c` (separators removed, empty segments
kept). -/
def splitOnC (c : Char) : List Char → List (List Char)
  | [] => [[]]
  | x :: xs =>
    if x = c then [] :: splitOnC c xs
    else
      match splitOnC c xs with
      | [] => [[x]]
      | y :: ys => (x :: y) :: ys

/-- The query part of a URL: after the first `?`, before any fragment. -/
def queryOf (url : List Char) : List Char :=
  dropPast (Char.ofNat 63) (takeUntil (Char.ofNat 35) url)

/-- The (name, value) pairs of a URL's query string. -/
def paramsOf (url : List Char) : List (List Char × List Char) :=
  (splitOnC (Char.ofNat 38) (queryOf url)).map
    (fun p => (takeUntil (Char.ofNat 61) p, dropPast (Char.ofNat 61) p))

/-- The value of the first query parameter called `name` in `url`. -/
def getQueryParam (url name : String) : Option String :=
  ((paramsOf url.toList).find? (fun p => p.1 == name.toList)).map
    (fun p => String.mk p.2)

theorem takeUntil_of_not_mem {c : Char} {l : List Char} (h : c ∉ l) :
    takeUntil c l = l := by
  induction l with
  | nil => rfl
  | cons x xs ih =>
    simp only [List.mem_cons, not_or] at h
    simp [takeUntil, Ne.symm h.1, ih h.2]

theorem takeUntil_append_of_not_mem {c : Char} {l : List Char} (r : List Char)
    (h : c ∉ l) : takeUntil c (l ++ r) = l ++ takeUntil c r := by
  induction l with
  | nil => rfl
  | cons x xs ih =>
    simp only [List.mem_cons, not_or] at h
    simp [takeUntil, Ne.symm h.1, ih h.2]

theorem takeUntil_append_cons {c : Char} {l : List Char} (r : List Char)
    (h : c ∉ l) : takeUntil c (l ++ c :: r) = l := by
  rw [takeUntil_append_of_not_mem _ h]
  simp [takeUntil]

theorem dropPast_append_cons {c : Char} {l : List Char} (r : List Char)
    (h : c ∉ l) : dropPast c (l ++ c :: r) = r := by
  induction l with
  | nil => simp [dropPast]
  | cons x xs ih =>
    simp only [List.mem_cons, not_or] at h
    simp [dropPast, Ne.symm h.1, ih h.2]

theorem splitOnC_of_not_mem {c : Char} {l : List Char} (h : c ∉ l) :
    splitOnC c l = [l] := by
  induction l with
  | nil => rfl
  | cons x xs ih =>
    simp only [List.mem_cons, not_or] at h
    simp [splitOnC, Ne.symm h.1, ih h.2]

theorem toList_append (s t : String) : (s ++ t).toList = s.toList ++ t.toList := rfl

/-- For any suffix `v` free of `#` and `&`, the URL the resolve handler
builds parses to the single query parameter `domain` with value exactly
`v` (an `=` inside `v` is harmless since only the first `=` of the pair
separates name from value). -/
theorem paramsOf_resolve (v : List Char)
    (h1 : Char.ofNat 35 ∉ v) (h2 : Char.ofNat 38 ∉ v) :
    paramsOf ("http://localhost:3007/resolve?domain=".toList ++ v) =
      [("domain".toList, v)] := by
  have hsplit : "http://localhost:3007/resolve?domain=".toList =
      "http://localhost:3007/resolve".toList ++
        Char.ofNat 63 :: ("domain".toList ++ [Char.ofNat 61]) := by decide
  have hhash : Char.ofNat 35 ∉ "http://localhost:3007/resolve?domain=".toList ++ v := by
    intro hmem
    rcases List.mem_append.mp hmem with hl | hr
    · revert hl; decide
    · exact h1 hr
  have htake : takeUntil (Char.ofNat 35) ("http://localhost:3007/resolve?domain=".toList ++ v) =
      "http://localhost:3007/resolve?domain=".toList ++ v :=
    takeUntil_of_not_mem hhash
  have hq : queryOf ("http://localhost:3007/resolve?domain=".toList ++ v) =
      "domain".toList ++ Char.ofNat 61 :: v := by
    rw [queryOf, htake, hsplit, List.append_assoc, List.cons_append]
    rw [dropPast_append_cons _ (by decide)]
    simp
  have hamp : Char.ofNat 38 ∉ "domain".toList ++ Char.ofNat 61 :: v := by
    intro hmem
    rcases List.mem_append.mp hmem with hl | hr
    · revert hl; decide
    · rcases List.mem_cons.mp hr with he | hv
      · exact absurd he (by decide)
      · exact h2 hv
  rw [paramsOf, hq, splitOnC_of_not_mem hamp]
  rw [List.map_cons, List.map_nil]
  rw [takeUntil_append_cons _ (by decide), dropPast_append_cons _ (by decide)]

/-- A response is either the backend's own (body, status) relayed for some
request the oracle answered, or the fixed proxy-error shape with status
500. -/
def relayedOrError (bk : Backend) (out : (Json × Nat) × List OutRequest) : Prop :=
  (∃ req S B, bk req = Except.ok (S, B) ∧ out.1 = (B, S)) ∨
  (∃ m, out.1 = (Json.obj [("error", Json.str m)], 500))

/-- Claim C1: for each of the four proxied routes, whenever the backend
request succeeds and the backend returns JSON body `B` with status code
`S`, the gateway's response is exactly `(B, S)`: same status, identical
body, no transformation. -/
theorem C1_relay_identity (bk : Backend) (S : Nat) (B : Json) :
    (bk (OutRequest.mk Method.get (API_BASE_URL ++ "/health") none []) =
        Except.ok (S, B) → (api_health bk).1 = (B, S)) ∧
    (∀ b : Json,
      bk (OutRequest.mk Method.post (API_BASE_URL ++ "/validate") (some b)
          [("Content-Type", "application/json")]) = Except.ok (S, B) →
      (api_validate (Except.ok b) bk).1 = (B, S)) ∧
    (∀ b : Json,
      bk (OutRequest.mk Method.post (API_BASE_URL ++ "/register") (some b)
          [("Content-Type", "application/json")]) = Except.ok (S, B) →
      (api_register (Except.ok b) bk).1 = (B, S)) ∧
    (∀ d : Option String,
      bk (OutRequest.mk Method.get
          (API_BASE_URL ++ "/resolve?domain=" ++ pyFormatOpt d) none []) =
        Except.ok (S, B) →
      (api_resolve d bk).1 = (B, S)) := by
  refine ⟨fun h => ?_, fun b h => ?_, fun b h => ?_, fun d h => ?_⟩ <;>
    simp [api_health, api_validate, api_register, api_resolve, h]

/-- Witness for C1 at a concrete backend always answering 200 with an empty
object. -/
theorem C1_relay_identity_witness :
    (api_health (fun _ => Except.ok (200, Json.obj []))).1 = (Json.obj [], 200) :=
  (C1_relay_identity (fun _ => Except.ok (200, Json.obj [])) 200 (Json.obj [])).1 rfl

/-- Counterexample to claim C2 as stated: an exception whose `str` is the
empty string (possible for a bare Python exception) is relayed verbatim,
so the `error` field of the 500 body is empty, not a non-empty string. -/
theorem C2_counterexample :
    (api_health (fun _ => Except.error "")).1 =
      (Json.obj [("error", Json.str "")], 500) ∧
    Json.getField (api_health (fun _ => Except.error "")).1.1 "error" =
      some (Json.str "") ∧
    "".length = 0 :=
  ⟨rfl, rfl, rfl⟩

/-- Claim C2 as amended: when the outbound call raises an exception with
message `m`, every proxied route responds with status 500 and body
`obj [("error", str m)]`, `m` being exactly the exception's message (the
code does not force `m` to be non-empty). -/
theorem C2_error_shape (bk : Backend) (m : String) :
    (bk (OutRequest.mk Method.get (API_BASE_URL ++ "/health") none []) =
        Except.error m →
      (api_health bk).1 = (Json.obj [("error", Json.str m)], 500)) ∧
    (∀ b : Json,
      bk (OutRequest.mk Method.post (API_BASE_URL ++ "/validate") (some b)
          [("Content-Type", "application/json")]) = Except.error m →
      (api_validate (Except.ok b) bk).1 = (Json.obj [("error", Json.str m)], 500)) ∧
    (∀ b : Json,
      bk (OutRequest.mk Method.post (API_BASE_URL ++ "/register") (some b)
          [("Content-Type", "application/json")]) = Except.error m →
      (api_register (Except.ok b) bk).1 = (Json.obj [("error", Json.str m)], 500)) ∧
    (∀ d : Option String,
      bk (OutRequest.mk Method.get
          (API_BASE_URL ++ "/resolve?domain=" ++ pyFormatOpt d) none []) =
        Except.error m →
      (api_resolve d bk).1 = (Json.obj [("error", Json.str m)], 500)) := by
  refine ⟨fun h => ?_, fun b h => ?_, fun b h => ?_, fun d h => ?_⟩ <;>
    simp [api_health, api_validate, api_register, api_resolve, h]

/-- Witness for the amended C2 at a backend that always raises `boom`. -/
theorem C2_error_shape_witness :
    (api_health (fun _ => Except.error "boom")).1 =
      (Json.obj [("error", Json.str "boom")], 500) :=
  (C2_error_shape (fun _ => Except.error "boom") "boom").1 rfl

/-- Claim C3: every proxy handler is total over its inputs (the embedding
of the handler body, whose single outbound call sits inside a catch-all
`except Exception`), and its response is always either the backend's
relayed JSON payload and status or the fixed error shape with 500 — never
an unhandled crash. -/
theorem C3_handler_totality (bk : Backend) (inb : Except String Json)
    (d : Option String) :
    relayedOrError bk (api_health bk) ∧
    relayedOrError bk (api_validate inb bk) ∧
    relayedOrError bk (api_register inb bk) ∧
    relayedOrError bk (api_resolve d bk) := by
  refine ⟨?_, ?_, ?_, ?_⟩
  · rcases h : bk (OutRequest.mk Method.get (API_BASE_URL ++ "/health") none [])
      with e | ⟨S, B⟩
    · exact Or.inr ⟨e, by simp [api_health, h]⟩
    · exact Or.inl ⟨_, S, B, h, by simp [api_health, h]⟩
  · rcases inb with e | b
    · exact Or.inr ⟨e, rfl⟩
    · rcases h : bk (OutRequest.mk Method.post (API_BASE_URL ++ "/validate")
        (some b) [("Content-Type", "application/json")]) with e | ⟨S, B⟩
      · exact Or.inr ⟨e, by simp [api_validate, h]⟩
      · exact Or.inl ⟨_, S, B, h, by simp [api_validate, h]⟩
  · rcases inb with e | b
    · exact Or.inr ⟨e, rfl⟩
    · rcases h : bk (OutRequest.mk Method.post (API_BASE_URL ++ "/register")
        (some b) [("Content-Type", "application/json")]) with e | ⟨S, B⟩
      · exact Or.inr ⟨e, by simp [api_register, h]⟩
      · exact Or.inl ⟨_, S, B, h, by simp [api_register, h]⟩
  · rcases h : bk (OutRequest.mk Method.get
      (API_BASE_URL ++ "/resolve?domain=" ++ pyFormatOpt d) none []) with e | ⟨S, B⟩
    · exact Or.inr ⟨e, by simp [api_resolve, h]⟩
    · exact Or.inl ⟨_, S, B, h, by simp [api_resolve, h]⟩

/-- Claim C4: `/health` always answers 200 with exactly the constant body
`obj [("status", "running"), ("ui_server", "Flask"), ("port", 8765)]` and
an empty outbound trace (no backend call), for every backend oracle. -/
theorem C4_local_health (bk : Backend) :
    health bk = ((Json.obj [("status", Json.str "running"),
      ("ui_server", Json.str "Flask"), ("port", Json.num 8765)], 200), []) :=
  rfl

/-- Claim C5: with the static file absent the process prints the error and
exits with code 1 — a nonzero code — and the outcome binds no listener;
with the file present the listener is bound on all interfaces, port 8765. -/
theorem C5_startup_gate :
    main_entry false = StartOutcome.exited 1 "ERROR: public/index.html not found!" ∧
    main_entry true = StartOutcome.listening "0.0.0.0" 8765 := by
  constructor <;> decide

/-- Counterexample to claim C6 as stated: for the domain value `a&b`
(containing the URL-reserved character `&`), the handler interpolates the
raw text into the URL, and under standard query parsing the backend's
`domain` parameter is `a`, not `a&b` — the suffix is silently rerouted
into a separate parameter rather than forwarded or percent-encoded. -/
theorem C6_counterexample :
    (api_resolve (some "a&b") (fun _ => Except.ok (200, Json.obj []))).2 =
      [OutRequest.mk Method.get "http://localhost:3007/resolve?domain=a&b" none []] ∧
    getQueryParam "http://localhost:3007/resolve?domain=a&b" "domain" = some "a" ∧
    ("a" == "a&b") = false := by
  refine ⟨rfl, by decide, by decide⟩

/-- Claim C6 as amended: the raw query value is interpolated into the URL
without percent-encoding, so the backend receives exactly `v` as the
`domain` parameter precisely when `v` contains no `#` and no `&`; reserved
characters are passed through raw and can change the parsed query. -/
theorem C6_forward_unreserved (bk : Backend) (v : String)
    (h1 : Char.ofNat 35 ∉ v.toList) (h2 : Char.ofNat 38 ∉ v.toList) :
    (api_resolve (some v) bk).2 =
      [OutRequest.mk Method.get (API_BASE_URL ++ "/resolve?domain=" ++ v) none []] ∧
    getQueryParam (API_BASE_URL ++ "/resolve?domain=" ++ v) "domain" = some v := by
  constructor
  · simp only [api_resolve, pyFormatOpt]
    rcases bk (OutRequest.mk Method.get (API_BASE_URL ++ "/resolve?domain=" ++ v)
      none []) with e | ⟨S, B⟩ <;> rfl
  · have hurl : (API_BASE_URL ++ "/resolve?domain=" ++ v).toList =
        "http://localhost:3007/resolve?domain=".toList ++ v.toList := by
      rw [toList_append]
      have : (API_BASE_URL ++ "/resolve?domain=").toList =
          "http://localhost:3007/resolve?domain=".toList := by decide
      rw [this]
    rw [getQueryParam, hurl, paramsOf_resolve v.toList h1 h2]
    have hname : ("domain".toList == "domain".toList) = true := by decide
    simp [List.find?, hname]

/-- Witness for the amended C6 at `v = example.com`. -/
theorem C6_forward_unreserved_witness :
    getQueryParam (API_BASE_URL ++ "/resolve?domain=" ++ "example.com") "domain" =
      some "example.com" :=
  (C6_forward_unreserved (fun _ => Except.ok (200, Json.obj []))
    "example.com" (by decide) (by decide)).2

/-- Claim C7: each inbound request triggers at most one outbound request:
none for `/` and `/health`, exactly one for the GET proxies (the single
attempt, also counted when it fails — never a retry), at most one for the
POST proxies, and exactly one on their success path (inbound body parsed). -/
theorem C7_single_outbound (bk : Backend) (inb : Except String Json)
    (d : Option String) :
    (health bk).2 = [] ∧ (index bk).2 = [] ∧
    (api_health bk).2.length = 1 ∧
    (api_resolve d bk).2.length = 1 ∧
    (api_validate inb bk).2.length ≤ 1 ∧
    (api_register inb bk).2.length ≤ 1 ∧
    (∀ b : Json, (api_validate (Except.ok b) bk).2.length = 1 ∧
      (api_register (Except.ok b) bk).2.length = 1) := by
  refine ⟨rfl, rfl, ?_, ?_, ?_, ?_, fun b => ⟨?_, ?_⟩⟩
  · rcases h : bk (OutRequest.mk Method.get (API_BASE_URL ++ "/health") none [])
      with e | ⟨S, B⟩ <;> simp [api_health, h]
  · rcases h : bk (OutRequest.mk Method.get
      (API_BASE_URL ++ "/resolve?domain=" ++ pyFormatOpt d) none [])
      with e | ⟨S, B⟩ <;> simp [api_resolve, h]
  · rcases inb with e | b
    · simp [api_validate]
    · rcases h : bk (OutRequest.mk Method.post (API_BASE_URL ++ "/validate")
        (some b) [("Content-Type", "application/json")]) with e | ⟨S, B⟩ <;>
        simp [api_validate, h]
  · rcases inb with e | b
    · simp [api_register]
    · rcases h : bk (OutRequest.mk Method.post (API_BASE_URL ++ "/register")
        (some b) [("Content-Type", "application/json")]) with e | ⟨S, B⟩ <;>
        simp [api_register, h]
  · rcases h : bk (OutRequest.mk Method.post (API_BASE_URL ++ "/validate")
      (some b) [("Content-Type", "application/json")]) with e | ⟨S, B⟩ <;>
      simp [api_validate, h]
  · rcases h : bk (OutRequest.mk Method.post (API_BASE_URL ++ "/register")
      (some b) [("Content-Type", "application/json")]) with e | ⟨S, B⟩ <;>
      simp [api_register, h]

/-- Counterexample to claim C8 as stated: the body `/health` constructs has
no field named `serviceName`. -/
theorem C8_counterexample :
    Json.getField (health (fun _ => Except.ok (200, Json.obj []))).1.1
      "serviceName" = none :=
  rfl

/-- Claim C8 as amended: the value constructed for the gateway's own health
endpoint has the shape `(status : string, ui_server : string, port :
integer)` — the middle field is named `ui_server`, not `serviceName`. -/
theorem C8_health_shape (bk : Backend) :
    Json.getField (health bk).1.1 "status" = some (Json.str "running") ∧
    Json.getField (health bk).1.1 "ui_server" = some (Json.str "Flask") ∧
    Json.getField (health bk).1.1 "port" = some (Json.num 8765) ∧
    Json.getField (health bk).1.1 "serviceName" = none :=
  ⟨rfl, rfl, rfl, rfl⟩

/-- Claim C9: the POST proxies do not forward raw bytes or inbound headers:
on a parsed inbound body `b` the single outbound request carries `b` as its
re-serialized JSON payload with the fixed `Content-Type: application/json`
header; and when `request.json` raises (non-JSON body or wrong content
type) the handler answers the 500 error shape with no backend call. -/
theorem C9_post_body_handling (bk : Backend) (e : String) (b : Json) :
    api_validate (Except.error e) bk =
      ((Json.obj [("error", Json.str e)], 500), []) ∧
    api_register (Except.error e) bk =
      ((Json.obj [("error", Json.str e)], 500), []) ∧
    (api_validate (Except.ok b) bk).2 =
      [OutRequest.mk Method.post (API_BASE_URL ++ "/validate") (some b)
        [("Content-Type", "application/json")]] ∧
    (api_register (Except.ok b) bk).2 =
      [OutRequest.mk Method.post (API_BASE_URL ++ "/register") (some b)
        [("Content-Type", "application/json")]] := by
  refine ⟨rfl, rfl, ?_, ?_⟩
  · simp only [api_validate]
    rcases bk (OutRequest.mk Method.post (API_BASE_URL ++ "/validate") (some b)
      [("Content-Type", "application/json")]) with e | ⟨S, B⟩ <;> rfl
  · simp only [api_register]
    rcases bk (OutRequest.mk Method.post (API_BASE_URL ++ "/register") (some b)
      [("Content-Type", "application/json")]) with e | ⟨S, B⟩ <;> rfl

/-- Claim C10: with no `domain` query parameter, `request.args.get` yields
`None`, the f-string renders it as the text `None`, and the handler
forwards `<backend>/resolve?domain=None` — whose `domain` query value is
the four-character string `None`. -/
theorem C10_none_forwarded (bk : Backend) :
    (api_resolve none bk).2 =
      [OutRequest.mk Method.get "http://localhost:3007/resolve?domain=None" none []] ∧
    getQueryParam "http://localhost:3007/resolve?domain=None" "domain" =
      some "None" := by
  constructor
  · simp only [api_resolve, pyFormatOpt]
    rcases bk (OutRequest.mk Method.get
      (API_BASE_URL ++ "/resolve?domain=" ++ "None") none []) with e | ⟨S, B⟩ <;> rfl
  · decide
